import Mathlib

/-
Verification of the response-interpretation and action-dispatch loop of
src/cua_agent.py (class ComputerUsingAgent).

The embedding models raw model replies as lists of characters.  The two
regular expressions of parse_and_execute_action (lines 67 and 73), the
relevant fragment of Python json.loads, the dict/string operations the
dispatch code uses, the dispatch itself (lines 80-132), and the turn loop
run_task (lines 195-252) are translated below.  Browser and system
primitives (playwright calls and time.sleep) are external collaborators;
they are modelled by a trace of attempted invocations together with an
oracle telling which invocations raise.
-/

set_option autoImplicit false

namespace CuaAgent

/-- Raw text is modelled as a list of characters. -/
abbrev Str := List Char

/-- Left brace character. -/
def lbrace : Char := '\x7b'

/-- Right brace character. -/
def rbrace : Char := '\x7d'

/-- Model of the regex class \s (ASCII whitespace as matched by Python re). -/
def isWsChar (c : Char) : Bool :=
  c == ' ' || c == '\t' || c == '\n' || c == '\r' || c == '\x0b' || c == '\x0c'

/-- strStarts p s is true when p is a prefix of s (literal regex/str matching). -/
def strStarts : Str → Str → Bool
  | [], _ => true
  | _ :: _, [] => false
  | p :: ps, c :: cs => p == c && strStarts ps cs

/-- strHas n h is true when n occurs as a contiguous substring of h
(model of the Python expression n in h for strings). -/
def strHas (n : Str) : Str → Bool
  | [] => strStarts n []
  | s@(_ :: rest) => strStarts n s || strHas n rest

/-- Model of Python str.lower() on ASCII text. -/
def pyLower (s : Str) : Str := s.map Char.toLower

/-- The completion-marker test of run_task line 229: a case-insensitive
substring match for "task_complete" or "done" against the raw reply. -/
def hasMarker (t : Str) : Bool :=
  strHas "task_complete".data (pyLower t) || strHas "done".data (pyLower t)

/-- After a closing brace, the lazy fenced match ends iff optional whitespace
followed by three backticks comes next. -/
def closesFence (s : Str) : Bool :=
  strStarts "```".data (s.dropWhile isWsChar)

/-- Lazy tail of the capture group: consume characters up to and including the
first closing brace whose suffix closes the fence. -/
def lazyBody : Str → Option Str
  | [] => none
  | c :: rest =>
      if c == rbrace && closesFence rest then some [rbrace]
      else
        match lazyBody rest with
        | some t => some (c :: t)
        | none => none

/-- Model of re.search with pattern three backticks, json, \s*, a lazy
brace group, \s*, three backticks, under re.DOTALL (source line 67).
Returns the captured group.  The scan is leftmost; at a candidate position the
whitespace run after the fence opener is maximal (backtracking cannot place a
whitespace character where the opening brace is required), and the group is
the shortest one whose closing brace is followed by whitespace and a fence. -/
def findFenced : Str → Option Str
  | [] => none
  | s@(_ :: rest) =>
      if strStarts "```json".data s then
        match (s.drop 7).dropWhile isWsChar with
        | c :: body =>
            if c == lbrace then
              match lazyBody body with
              | some t => some (lbrace :: t)
              | none => findFenced rest
            else findFenced rest
        | [] => findFenced rest
      else findFenced rest

/-- Take the characters of s up to and including the last closing brace of s. -/
def takeToLastClose (s : Str) : Str :=
  (s.reverse.dropWhile (fun c => c != rbrace)).reverse

/-- Model of re.search with the greedy pattern brace, dot-star, brace under
re.DOTALL (source line 73): the match starts at the leftmost opening brace
that has a closing brace after it and extends to the last closing brace. -/
def greedySpan : Str → Option Str
  | [] => none
  | c :: rest =>
      if c == lbrace && rest.contains rbrace then some (lbrace :: takeToLastClose rest)
      else greedySpan rest

/-- JSON values as produced by Python json.loads.  Numbers are modelled as
integers: the agent protocol only ever transports integer literals, and a
float literal is treated as undecodable by this model. -/
inductive Json : Type
  | null : Json
  | bool (b : Bool) : Json
  | num (n : Int) : Json
  | str (s : Str) : Json
  | arr (xs : List Json) : Json
  | obj (kvs : List (Str × Json)) : Json

/-- Whitespace accepted by the JSON grammar. -/
def isJsonWs (c : Char) : Bool :=
  c == ' ' || c == '\t' || c == '\n' || c == '\r'

/-- Skip JSON whitespace. -/
def skipJsonWs (s : Str) : Str := s.dropWhile isJsonWs

/-- Value of a hexadecimal digit. -/
def hexVal (c : Char) : Option Nat :=
  if decide ('0' ≤ c) && decide (c ≤ '9') then some (c.toNat - 48)
  else if decide ('a' ≤ c) && decide (c ≤ 'f') then some (c.toNat - 97 + 10)
  else if decide ('A' ≤ c) && decide (c ≤ 'F') then some (c.toNat - 65 + 10)
  else none

/-- Value of a decimal digit. -/
def digitVal (c : Char) : Option Nat :=
  if decide ('0' ≤ c) && decide (c ≤ '9') then some (c.toNat - 48) else none

/-- Decode one escape sequence after a backslash, as json.loads does in strict
mode; an unrecognized escape fails. -/
def unescape1 : Str → Option (Char × Str)
  | [] => none
  | e :: rest =>
      if e == '"' then some ('"', rest)
      else if e == '\\' then some ('\\', rest)
      else if e == '/' then some ('/', rest)
      else if e == 'b' then some ('\x08', rest)
      else if e == 'f' then some ('\x0c', rest)
      else if e == 'n' then some ('\n', rest)
      else if e == 'r' then some ('\r', rest)
      else if e == 't' then some ('\t', rest)
      else if e == 'u' then
        match rest with
        | h1 :: h2 :: h3 :: h4 :: rest2 =>
            match hexVal h1, hexVal h2, hexVal h3, hexVal h4 with
            | some a, some b, some c, some d =>
                some (Char.ofNat (((a * 16 + b) * 16 + c) * 16 + d), rest2)
            | _, _, _, _ => none
        | _ => none
      else none

/-- Body of a JSON string after the opening quote, strict mode: unescaped
control characters are rejected.  Returns the content and the remainder after
the closing quote. -/
def parseStringBody : Nat → Str → Option (Str × Str)
  | 0, _ => none
  | _, [] => none
  | fuel + 1, c :: rest =>
      if c == '"' then some ([], rest)
      else if c == '\\' then
        match unescape1 rest with
        | some (ch, r) =>
            match parseStringBody fuel r with
            | some (t, r2) => some (ch :: t, r2)
            | none => none
        | none => none
      else if c.toNat < 32 then none
      else
        match parseStringBody fuel rest with
        | some (t, r2) => some (c :: t, r2)
        | none => none

/-- Collect a run of decimal digits. -/
def takeDigits : Str → (List Nat × Str)
  | [] => ([], [])
  | c :: rest =>
      match digitVal c with
      | some d =>
          let r := takeDigits rest
          (d :: r.1, r.2)
      | none => ([], c :: rest)

/-- JSON integer literal: optional minus sign, then either a lone zero or a
nonzero digit followed by more digits.  A following dot or exponent marks a
float, which this model does not decode. -/
def parseIntLit (s : Str) : Option (Int × Str) :=
  let split : Bool × Str :=
    match s with
    | c :: rest => if c == '-' then (true, rest) else (false, s)
    | [] => (false, s)
  match split.2 with
  | [] => none
  | c :: rest =>
      match digitVal c with
      | none => none
      | some d =>
          let dr : List Nat × Str := if d == 0 then ([], rest) else takeDigits rest
          let v : Nat := (d :: dr.1).foldl (fun a b => a * 10 + b) 0
          let iv : Int := if split.1 then -(v : Int) else (v : Int)
          match dr.2 with
          | c2 :: _ =>
              if c2 == '.' || c2 == 'e' || c2 == 'E' then none else some (iv, dr.2)
          | [] => some (iv, dr.2)

mutual

/-- Recursive-descent model of the JSON value grammar used by json.loads,
fuelled to make termination structural. -/
def parseValue : Nat → Str → Option (Json × Str)
  | 0, _ => none
  | fuel + 1, s =>
      match skipJsonWs s with
      | [] => none
      | c :: rest =>
          if c == '"' then
            match parseStringBody (rest.length + 1) rest with
            | some (t, r) => some (Json.str t, r)
            | none => none
          else if c == lbrace then
            match skipJsonWs rest with
            | c2 :: rest2 =>
                if c2 == rbrace then some (Json.obj [], rest2)
                else parseMembers fuel (c2 :: rest2) []
            | [] => none
          else if c == '[' then
            match skipJsonWs rest with
            | c2 :: rest2 =>
                if c2 == ']' then some (Json.arr [], rest2)
                else parseItems fuel (c2 :: rest2) []
            | [] => none
          else if strStarts "true".data (c :: rest) then
            some (Json.bool true, (c :: rest).drop 4)
          else if strStarts "false".data (c :: rest) then
            some (Json.bool false, (c :: rest).drop 5)
          else if strStarts "null".data (c :: rest) then
            some (Json.null, (c :: rest).drop 4)
          else
            match parseIntLit (c :: rest) with
            | some (n, r) => some (Json.num n, r)
            | none => none

/-- Members of a JSON object, positioned at the start of a key. -/
def parseMembers : Nat → Str → List (Str × Json) → Option (Json × Str)
  | 0, _, _ => none
  | fuel + 1, s, acc =>
      match skipJsonWs s with
      | c :: rest =>
          if c == '"' then
            match parseStringBody (rest.length + 1) rest with
            | some (k, r1) =>
                match skipJsonWs r1 with
                | ':' :: r2 =>
                    match parseValue fuel r2 with
                    | some (v, r3) =>
                        match skipJsonWs r3 with
                        | ',' :: r4 => parseMembers fuel r4 (acc ++ [(k, v)])
                        | c5 :: r5 =>
                            if c5 == rbrace then some (Json.obj (acc ++ [(k, v)]), r5)
                            else none
                        | [] => none
                    | none => none
                | _ => none
            | none => none
          else none
      | [] => none

/-- Items of a JSON array. -/
def parseItems : Nat → Str → List Json → Option (Json × Str)
  | 0, _, _ => none
  | fuel + 1, s, acc =>
      match parseValue fuel s with
      | some (v, r) =>
          match skipJsonWs r with
          | ',' :: r2 => parseItems fuel r2 (acc ++ [v])
          | ']' :: r2 => some (Json.arr (acc ++ [v]), r2)
          | _ => none
      | none => none

end

/-- Model of json.loads: one JSON document, surrounding whitespace allowed,
the whole input must be consumed (anything left over is the Extra data
error).  None models a raised json.JSONDecodeError. -/
def json_loads (s : Str) : Option Json :=
  match parseValue (2 * s.length + 8) s with
  | some (v, r) => if skipJsonWs r == [] then some v else none
  | none => none

/-- Browser and system primitives invoked by parse_and_execute_action.  Each
constructor records the arguments the source passes to the collaborator. -/
inductive Prim : Type
  | mouseClick (x y : Json)
  | clickSel (sel : Json)
  | fill (sel : Json) (text : Json)
  | kbType (text : Json)
  | kbPress (key : Str)
  | wheel (dx dy : Json)
  | sleep (secs : Json)

/-- Observable outcome of parse_and_execute_action: which print/return path
of the source (lines 63-139) is taken.  Every constructor except success
corresponds to a return value of False. -/
inductive ParseExecResult : Type
  | noJson
  | jsonError
  | clickMissing
  | unknownAction (a : Option Json)
  | execError
  | success

/-- Lookup in the dict json.loads builds: a duplicated key keeps its last
binding, so later bindings shadow earlier ones. -/
def jlookup : List (Str × Json) → Str → Option Json
  | [], _ => none
  | (k', v) :: rest, k =>
      match jlookup rest k with
      | some v' => some v'
      | none => if k' == k then some v else none

/-- Python membership k in d for a decoded JSON value d: key lookup on a
dict, substring test on a string, element equality on a list; anything else
raises TypeError. -/
def pyIn (k : Str) : Json → Except Unit Bool
  | Json.obj kvs => Except.ok (jlookup kvs k).isSome
  | Json.str s => Except.ok (strHas k s)
  | Json.arr xs =>
      Except.ok (xs.any (fun j => match j with | Json.str s => s == k | _ => false))
  | _ => Except.error ()

/-- Python subscription d[k] with a string key: only a dict holding the key
succeeds; everything else raises. -/
def pyIndex (d : Json) (k : Str) : Except Unit Json :=
  match d with
  | Json.obj kvs =>
      match jlookup kvs k with
      | some v => Except.ok v
      | none => Except.error ()
  | _ => Except.error ()

/-- Python d.get(k), raising AttributeError when d is not a dict. -/
def pyGet (d : Json) (k : Str) : Except Unit (Option Json) :=
  match d with
  | Json.obj kvs => Except.ok (jlookup kvs k)
  | _ => Except.error ()

/-- Python truthiness of a decoded JSON value. -/
def pyTruthy : Json → Bool
  | Json.null => false
  | Json.bool b => b
  | Json.num n => n != 0
  | Json.str s => !s.isEmpty
  | Json.arr xs => !xs.isEmpty
  | Json.obj kvs => !kvs.isEmpty

/-- The hardcoded Google search box selector of source line 101. -/
def qSel : Str := "input[name=\"q\"]".data

/-- The generic search input selector of source line 104. -/
def searchSel : Str := "input[type=\"search\"]".data

/-- The Google Search button selector of source line 114. -/
def googleBtnSel : Str := "input[value=\"Google Search\"]".data

/-- The generic submit button selector of source line 117. -/
def submitBtnSel : Str := "button[type=\"submit\"]".data

/-- Python comparison action == k for the decoded action value: true exactly
when the value is the string k. -/
def isKind (action : Option Json) (k : Str) : Bool :=
  match action with
  | some (Json.str s) => s == k
  | _ => false

/-- The selector arm of the click branch (source lines 87-91): elif
"selector" in details then page.click(details["selector"]), else report the
missing-argument message and return False. -/
def clickViaSelector (env : Prim → Bool) (details : Json) : List Prim × ParseExecResult :=
  match pyIn "selector".data details with
  | Except.error _ => ([], ParseExecResult.execError)
  | Except.ok sin =>
      if sin then
        match pyIndex details "selector".data with
        | Except.ok s =>
            let p := Prim.clickSel s
            ([p], if env p then ParseExecResult.execError else ParseExecResult.success)
        | Except.error _ => ([], ParseExecResult.execError)
      else ([], ParseExecResult.clickMissing)

/-- The click branch (source lines 83-91): coordinates take priority over a
selector; page.mouse.click receives details["x"] and details["y"]. -/
def clickExec (env : Prim → Bool) (details : Json) : List Prim × ParseExecResult :=
  match pyIn "x".data details with
  | Except.error _ => ([], ParseExecResult.execError)
  | Except.ok xin =>
      if xin then
        match pyIn "y".data details with
        | Except.error _ => ([], ParseExecResult.execError)
        | Except.ok yin =>
            if yin then
              match pyIndex details "x".data, pyIndex details "y".data with
              | Except.ok jx, Except.ok jy =>
                  let p := Prim.mouseClick jx jy
                  ([p], if env p then ParseExecResult.execError else ParseExecResult.success)
              | Except.error _, _ => ([], ParseExecResult.execError)
              | _, Except.error _ => ([], ParseExecResult.execError)
            else clickViaSelector env details
      else clickViaSelector env details

/-- text = details.get("query") or details.get("text", "") from source
line 95: the query value when it is truthy, else the text value, else the
empty string. -/
def getTextDefault (details : Json) : Except Unit Json :=
  match pyGet details "text".data with
  | Except.error e => Except.error e
  | Except.ok (some v) => Except.ok v
  | Except.ok none => Except.ok (Json.str [])

/-- Combined text argument computation of source line 95. -/
def getTextArg (details : Json) : Except Unit Json :=
  match pyGet details "query".data with
  | Except.error e => Except.error e
  | Except.ok (some v) => if pyTruthy v then Except.ok v else getTextDefault details
  | Except.ok none => getTextDefault details

/-- The type / type_search_query branch (source lines 93-106).  With a
selector the field is filled directly.  Without one the source tries, in
nested try/except blocks, the Google search box, then the generic search
input, then raw keyboard typing; a failure of the last step reaches the
outer exception handler. -/
def typeTextExec (env : Prim → Bool) (details : Json) : List Prim × ParseExecResult :=
  match getTextArg details with
  | Except.error _ => ([], ParseExecResult.execError)
  | Except.ok t =>
      match pyIn "selector".data details with
      | Except.error _ => ([], ParseExecResult.execError)
      | Except.ok sin =>
          if sin then
            match pyIndex details "selector".data with
            | Except.ok s =>
                let p := Prim.fill s t
                ([p], if env p then ParseExecResult.execError else ParseExecResult.success)
            | Except.error _ => ([], ParseExecResult.execError)
          else
            let p1 := Prim.fill (Json.str qSel) t
            if env p1 then
              let p2 := Prim.fill (Json.str searchSel) t
              if env p2 then
                let p3 := Prim.kbType t
                ([p1, p2, p3],
                  if env p3 then ParseExecResult.execError else ParseExecResult.success)
              else ([p1, p2], ParseExecResult.success)
            else ([p1], ParseExecResult.success)

/-- The press_enter / submit branch (source lines 108-109). -/
def pressEnterExec (env : Prim → Bool) : List Prim × ParseExecResult :=
  let p := Prim.kbPress "Enter".data
  ([p], if env p then ParseExecResult.execError else ParseExecResult.success)

/-- The click_search / search branch (source lines 111-119): click the
Google Search input button, on failure click a generic submit button, on
failure press Enter; a failure of the last step reaches the outer handler. -/
def clickSearchExec (env : Prim → Bool) : List Prim × ParseExecResult :=
  let p1 := Prim.clickSel (Json.str googleBtnSel)
  if env p1 then
    let p2 := Prim.clickSel (Json.str submitBtnSel)
    if env p2 then
      let p3 := Prim.kbPress "Enter".data
      ([p1, p2, p3], if env p3 then ParseExecResult.execError else ParseExecResult.success)
    else ([p1, p2], ParseExecResult.success)
  else ([p1], ParseExecResult.success)

/-- The scroll branch (source lines 121-123). -/
def scrollExec (env : Prim → Bool) (details : Json) : List Prim × ParseExecResult :=
  match pyGet details "delta_y".data with
  | Except.error _ => ([], ParseExecResult.execError)
  | Except.ok dy =>
      let p := Prim.wheel (Json.num 0) (dy.getD (Json.num 300))
      ([p], if env p then ParseExecResult.execError else ParseExecResult.success)

/-- The wait branch (source lines 125-126). -/
def waitExec (env : Prim → Bool) (details : Json) : List Prim × ParseExecResult :=
  match pyGet details "seconds".data with
  | Except.error _ => ([], ParseExecResult.execError)
  | Except.ok secs =>
      let p := Prim.sleep (secs.getD (Json.num 1))
      ([p], if env p then ParseExecResult.execError else ParseExecResult.success)

/-- The elif cascade of parse_and_execute_action (source lines 83-130),
dispatching on the decoded action value.  env p = true means the primitive p
raises when invoked; an uncaught raise is converted to execError by the
outer exception handler of the source. -/
def dispatch (env : Prim → Bool) (action : Option Json) (details : Json) :
    List Prim × ParseExecResult :=
  if isKind action "click".data then clickExec env details
  else if isKind action "type".data || isKind action "type_search_query".data then
    typeTextExec env details
  else if isKind action "press_enter".data || isKind action "submit".data then
    pressEnterExec env
  else if isKind action "click_search".data || isKind action "search".data then
    clickSearchExec env
  else if isKind action "scroll".data then scrollExec env details
  else if isKind action "wait".data then waitExec env details
  else ([], ParseExecResult.unknownAction action)

/-- The two-stage extraction of source lines 66-78: the fenced json block
regex first; only when it has no match, the greedy brace-span regex. -/
def extractActionJson (r : Str) : Option Str :=
  match findFenced r with
  | some c => some c
  | none => greedySpan r

/-- Source lines 80-81 followed by the dispatch: action_data.get("action")
and action_data.get("details", default empty dict).  A non-dict top-level
value would make the dict methods raise, which the outer handler converts to
execError; it is unreachable because both regexes only ever capture
brace-delimited spans. -/
def runActionData (env : Prim → Bool) (d : Json) : List Prim × ParseExecResult :=
  match d with
  | Json.obj kvs =>
      dispatch env (jlookup kvs "action".data)
        ((jlookup kvs "details".data).getD (Json.obj []))
  | _ => ([], ParseExecResult.execError)

/-- parse_and_execute_action (source lines 63-139): extract a candidate JSON
span, decode it, and dispatch.  The trace lists every primitive invocation
attempted, in order. -/
def parse_and_execute_action (env : Prim → Bool) (response_text : Str) :
    List Prim × ParseExecResult :=
  match extractActionJson response_text with
  | some js =>
      match json_loads js with
      | some d => runActionData env d
      | none => ([], ParseExecResult.jsonError)
  | none => ([], ParseExecResult.noJson)

/-- The three result dictionaries run_task can return (source lines 212-217,
230-234, 245-249): the success dict with its step count, the API-failure
dict with its error string and step index, and the max-steps dict. -/
inductive RunResult : Type
  | complete (steps : Nat)
  | apiFailed (error : Str) (step : Nat)
  | maxSteps (steps : Nat)

/-- Collaborator calls inside run_task that can raise an exception which is
not caught anywhere in the source. -/
inductive ExcKind : Type
  | startFailure
  | gotoFailure
  | screenshotFailure

/-- How one invocation of run_task ends: a returned result dictionary, or an
exception propagating to the caller. -/
inductive RunOutcome : Type
  | normal (r : RunResult)
  | raised (e : ExcKind)

/-- The dictionary call_cua_api returns (source lines 183-193): the raw
reply on success, the stringified exception on failure.  The API call itself
is wrapped in try/except and never raises. -/
inductive ApiResult : Type
  | ok (text : Str)
  | err (e : Str)

/-- Collaborator behaviour for one run: the configured step budget, whether
browser startup, the initial navigation or the screenshot at a given step
raise, the model reply per step, and which primitives raise during action
execution.  Replies are indexed by step number: the loop is single-threaded,
so a deterministic per-step oracle covers every collaborator behaviour. -/
structure World : Type where
  maxSteps : Nat
  startFails : Bool
  gotoFails : Bool
  shotFails : Nat → Bool
  model : Nat → ApiResult
  env : Prim → Bool

/-- What one run of run_task produces: its outcome, how many times
stop_browser ran, and the trace of primitives attempted by action
execution. -/
structure RunTrace : Type where
  outcome : RunOutcome
  stops : Nat
  calls : List Prim

/-- The for-loop of run_task (source lines 205-244), fuelled by the number
of remaining iterations; step is the current zero-based index and acc the
primitive calls attempted so far.  Per iteration: screenshot, API call
(failure returns the API-failure dict with step + 1), completion-marker
check before any parsing, then parse_and_execute_action, whose result only
affects logging. -/
def run_loop (w : World) : Nat → Nat → List Prim → RunOutcome × List Prim
  | 0, _, acc => (RunOutcome.normal (RunResult.maxSteps w.maxSteps), acc)
  | fuel + 1, step, acc =>
      if w.shotFails step then (RunOutcome.raised ExcKind.screenshotFailure, acc)
      else
        match w.model step with
        | ApiResult.err e =>
            (RunOutcome.normal
              (RunResult.apiFailed ("API call failed: ".data ++ e) (step + 1)), acc)
        | ApiResult.ok text =>
            if hasMarker text then
              (RunOutcome.normal (RunResult.complete (step + 1)), acc)
            else run_loop w fuel (step + 1) (acc ++ (parse_and_execute_action w.env text).1)

/-- run_task (source lines 195-252).  start_browser runs before the
try/finally block, so an exception there skips stop_browser; page.goto and
the loop run inside the try block, and stop_browser runs exactly once in the
finally clause for every path that entered the try block. -/
def run_task (w : World) : RunTrace :=
  if w.startFails then ⟨RunOutcome.raised ExcKind.startFailure, 0, []⟩
  else if w.gotoFails then ⟨RunOutcome.raised ExcKind.gotoFailure, 1, []⟩
  else
    let r := run_loop w w.maxSteps 0 []
    ⟨r.1, 1, r.2⟩

/-- Spec-side description of an ordered fallback chain (spec section 4.3):
attempt the primitives in order and stop at the first that does not raise;
earlier failures are swallowed.  Returns the attempted prefix and whether
some attempt succeeded. -/
def chainAttempts (env : Prim → Bool) : List Prim → List Prim × Bool
  | [] => ([], false)
  | p :: ps =>
      if env p then
        let r := chainAttempts env ps
        (p :: r.1, r.2)
      else ([p], true)

/-- An environment in which no primitive ever raises. -/
def env0 : Prim → Bool := fun _ => false

/-- A run with budget 3 whose model always replies noop (no marker, no JSON). -/
def w0 : World := ⟨3, false, false, fun _ => false, fun _ => ApiResult.ok "noop".data, env0⟩

/-- The run w0 with a failing browser startup. -/
def wStartFail : World := ⟨3, true, false, fun _ => false, fun _ => ApiResult.ok "noop".data, env0⟩

/-- The run w0 with a screenshot that raises at every step. -/
def wShotFail : World := ⟨3, false, false, fun _ => true, fun _ => ApiResult.ok "noop".data, env0⟩

/-- A run whose model reply carries the completion marker in mixed case
together with a well-formed action block. -/
def wDone : World :=
  ⟨3, false, false, fun _ => false,
    fun _ => ApiResult.ok
      "All DONE. \x7b\"action\": \"scroll\", \"details\": \x7b\x7d\x7d".data, env0⟩

/-- A raw reply carrying a navigate action in a brace span. -/
def rNavigate : Str :=
  "Next: \x7b\"action\": \"navigate\", \"details\": \x7b\"url\": \"https://example.com\"\x7d\x7d".data

/-- A raw reply decodable as an object that lacks the action key. -/
def rMissingAction : Str := "\x7b\"details\": \x7b\"x\": 1\x7d\x7d".data

/-- A raw reply whose action kind is not in the vocabulary. -/
def rUnknownKind : Str := "\x7b\"action\": \"frobnicate\", \"details\": \x7b\x7d\x7d".data

/-- Two fenced json blocks: the first starts with a brace but is not valid
JSON, the second is a valid wait action. -/
def rTwoBlocks : Str :=
  "```json\n\x7bbad\n```\nmiddle\n```json\n\x7b\"action\": \"wait\", \"details\": \x7b\x7d\x7d\n```".data

/-- The second block of rTwoBlocks on its own. -/
def rSecondBlock : Str :=
  "```json\n\x7b\"action\": \"wait\", \"details\": \x7b\x7d\x7d\n```".data

/-- The capture the fenced regex extracts from rSecondBlock. -/
def jsWait : Str := "\x7b\"action\": \"wait\", \"details\": \x7b\x7d\x7d".data

/-- Two fenced json blocks that are both valid actions: wait first, scroll
second. -/
def rTwoValidBlocks : Str :=
  "```json\n\x7b\"action\": \"wait\", \"details\": \x7b\x7d\x7d\n```\nthen\n```json\n\x7b\"action\": \"scroll\", \"details\": \x7b\x7d\x7d\n```".data

/-- Details of a type_search_query action with a query and no selector. -/
def kvsTypeQ : List (Str × Json) := [("query".data, Json.str "OpenAI".data)]

/-- Details of a click action with coordinates and a selector both present. -/
def kvsClickXY : List (Str × Json) :=
  [("x".data, Json.num 10), ("y".data, Json.num 20),
    ("selector".data, Json.str "#btn".data)]

/-- C1: a raw reply whose lowercased text contains "task_complete" or
"done" makes the turn loop return the success outcome with the current step
count, at any iteration, before the response parser runs and without
executing any action from that reply (the call trace is left untouched). -/
theorem c1_marker_short_circuits (w : World) (fuel step : Nat) (acc : List Prim)
    (t : Str) (hshot : w.shotFails step = false)
    (hmodel : w.model step = ApiResult.ok t) (hmark : hasMarker t = true) :
    run_loop w (fuel + 1) step acc
      = (RunOutcome.normal (RunResult.complete (step + 1)), acc) := by
  simp [run_loop, hshot, hmodel, hmark]

/-- C1 witness: with a reply that contains "DONE" and a well-formed action
block, the first iteration ends the run as complete with step count 1 and no
primitive is attempted. -/
theorem c1_marker_short_circuits_witness :
    run_loop wDone 3 0 [] = (RunOutcome.normal (RunResult.complete 1), []) :=
  c1_marker_short_circuits wDone 2 0 []
    "All DONE. \x7b\"action\": \"scroll\", \"details\": \x7b\x7d\x7d".data
    rfl rfl (by decide)

/-- C2: when no reply ever carries a completion marker, the API never fails
and no collaborator raises, the loop performs exactly max_steps iterations
and run_task returns the max-steps failure dictionary reporting
steps = max_steps. -/
theorem c2_max_steps_reached (w : World)
    (hmodel : ∀ n, ∃ t, w.model n = ApiResult.ok t ∧ hasMarker t = false)
    (hstart : w.startFails = false) (hgoto : w.gotoFails = false)
    (hshot : ∀ n, w.shotFails n = false) :
    (run_task w).outcome = RunOutcome.normal (RunResult.maxSteps w.maxSteps) := by
  have key : ∀ fuel step acc,
      (run_loop w fuel step acc).1 = RunOutcome.normal (RunResult.maxSteps w.maxSteps) := by
    intro fuel
    induction fuel with
    | zero => intro step acc; rfl
    | succ n ih =>
        intro step acc
        obtain ⟨t, hm, hk⟩ := hmodel step
        simp [run_loop, hshot step, hm, hk, ih]
  simp only [run_task, hstart, hgoto, Bool.false_eq_true, if_false]
  exact key _ _ _

/-- C2 witness: with max_steps = 3 and a model that always replies noop, the
run ends as the max-steps failure with steps = 3. -/
theorem c2_max_steps_reached_witness :
    (run_task w0).outcome = RunOutcome.normal (RunResult.maxSteps 3) :=
  c2_max_steps_reached w0 (fun _ => ⟨"noop".data, rfl, rfl⟩) rfl rfl (fun _ => rfl)

/-- C3 counterexample: a parsed navigate action is not executed; the
dispatcher classifies it as unknown, reports failure, and no browser
primitive at all is invoked, so no URL is loaded. -/
theorem c3_navigate_counterexample :
    parse_and_execute_action env0 rNavigate
      = ([], ParseExecResult.unknownAction (some (Json.str "navigate".data))) := by
  rfl

/-- C3 amended: navigate is not part of the recognized action vocabulary;
for every environment and every details value the dispatcher sends a
navigate action to the unknown-action branch, touching no primitive. -/
theorem c3_navigate_unknown (env : Prim → Bool) (details : Json) :
    dispatch env (some (Json.str "navigate".data)) details
      = ([], ParseExecResult.unknownAction (some (Json.str "navigate".data))) := rfl

/-- C4 counterexample: a decodable object without the action key is handled
by the same unknown-action branch as an unrecognized action kind (with the
Python None in place of the kind string), not by a distinct
missing-action-field error: no such error path exists in the source. -/
theorem c4_missing_action_counterexample :
    parse_and_execute_action env0 rMissingAction = ([], ParseExecResult.unknownAction none)
    ∧ parse_and_execute_action env0 rUnknownKind
      = ([], ParseExecResult.unknownAction (some (Json.str "frobnicate".data))) :=
  ⟨rfl, rfl⟩

/-- C4 amended: for every raw text from which an object without the action
key is decoded, parse_and_execute_action returns the unknown-action outcome
carrying None, the classification shared with unrecognized action kinds. -/
theorem c4_missing_action_is_unknown (env : Prim → Bool) (r js : Str)
    (kvs : List (Str × Json)) (hex : extractActionJson r = some js)
    (hload : json_loads js = some (Json.obj kvs))
    (hact : jlookup kvs "action".data = none) :
    parse_and_execute_action env r = ([], ParseExecResult.unknownAction none) := by
  simp [parse_and_execute_action, hex, hload, runActionData, hact, dispatch, isKind]

/-- C4 amended witness: the object carrying only a details key is reported
as the unknown action None. -/
theorem c4_missing_action_is_unknown_witness :
    parse_and_execute_action env0 rMissingAction
      = ([], ParseExecResult.unknownAction none) :=
  c4_missing_action_is_unknown env0 rMissingAction rMissingAction
    [("details".data, Json.obj [("x".data, Json.num 1)])] rfl rfl rfl

/-- C5 counterexample: in a text whose first fenced block starts with a
brace but is not decodable while a later fenced block carries a valid wait
action, the parser reports a decode error and executes nothing; the later
block on its own would have produced the wait action, so the first valid
block is not the one returned. -/
theorem c5_first_block_counterexample :
    parse_and_execute_action env0 rTwoBlocks = ([], ParseExecResult.jsonError)
    ∧ parse_and_execute_action env0 rSecondBlock
      = ([Prim.sleep (Json.num 1)], ParseExecResult.success) :=
  ⟨rfl, rfl⟩

/-- C5 amended: the fenced-block search runs first and its capture alone is
decoded; the greedy brace span is consulted only when no fenced candidate
matches; and when the first fenced block is itself decodable with a valid
action it wins over later blocks (here wait beats a following scroll).  When
the first brace-started block is not decodable, its lazy capture may span
into later blocks and the decode error is final: no later block is tried. -/
theorem c5_extraction_order :
    (∀ r c, findFenced r = some c → extractActionJson r = some c)
    ∧ (∀ r, findFenced r = none → extractActionJson r = greedySpan r)
    ∧ parse_and_execute_action env0 rTwoValidBlocks
        = ([Prim.sleep (Json.num 1)], ParseExecResult.success) := by
  refine ⟨?_, ?_, rfl⟩
  · intro r c h
    simp [extractActionJson, h]
  · intro r h
    simp [extractActionJson, h]

/-- C5 witness: the fenced capture of a single valid block is the decoded
candidate. -/
theorem c5_extraction_order_witness :
    extractActionJson rSecondBlock = some jsWait :=
  c5_extraction_order.1 rSecondBlock jsWait rfl

/-- C6: a type or type_search_query action without a selector attempts
exactly the ordered fallback chain Google search box, generic search input,
raw keyboard typing, stopping at the first step that does not raise;
earlier failures are swallowed, and only a failure of the final step
surfaces (as the caught execution error). -/
theorem c6_type_fallback_chain (env : Prim → Bool) (kvs : List (Str × Json))
    (t : Json) (hsel : jlookup kvs "selector".data = none)
    (htext : getTextArg (Json.obj kvs) = Except.ok t) :
    dispatch env (some (Json.str "type".data)) (Json.obj kvs)
      = (let r := chainAttempts env [Prim.fill (Json.str qSel) t,
          Prim.fill (Json.str searchSel) t, Prim.kbType t]
         (r.1, if r.2 then ParseExecResult.success else ParseExecResult.execError))
    ∧ dispatch env (some (Json.str "type_search_query".data)) (Json.obj kvs)
      = (let r := chainAttempts env [Prim.fill (Json.str qSel) t,
          Prim.fill (Json.str searchSel) t, Prim.kbType t]
         (r.1, if r.2 then ParseExecResult.success else ParseExecResult.execError)) := by
  have hbody : typeTextExec env (Json.obj kvs)
      = (let r := chainAttempts env [Prim.fill (Json.str qSel) t,
          Prim.fill (Json.str searchSel) t, Prim.kbType t]
         (r.1, if r.2 then ParseExecResult.success else ParseExecResult.execError)) := by
    simp only [typeTextExec, htext, pyIn, hsel, Option.isSome_none, Bool.false_eq_true,
      if_false]
    by_cases h1 : env (Prim.fill (Json.str qSel) t) <;>
      by_cases h2 : env (Prim.fill (Json.str searchSel) t) <;>
        by_cases h3 : env (Prim.kbType t) <;>
          simp [chainAttempts, h1, h2, h3]
  exact ⟨hbody, hbody⟩

/-- C6 witness: query OpenAI, no selector, nothing raising: only the Google
search box is filled and the action succeeds. -/
theorem c6_type_fallback_chain_witness :
    dispatch env0 (some (Json.str "type_search_query".data)) (Json.obj kvsTypeQ)
      = ([Prim.fill (Json.str qSel) (Json.str "OpenAI".data)], ParseExecResult.success) := by
  have h := (c6_type_fallback_chain env0 kvsTypeQ (Json.str "OpenAI".data) rfl rfl).2
  simpa [chainAttempts, env0] using h

/-- C7: a click action whose details hold both x and y invokes the
coordinate-click primitive with exactly those two values and nothing else;
no selector lookup happens even when a selector is also present. -/
theorem c7_click_coordinates (env : Prim → Bool) (kvs : List (Str × Json))
    (jx jy : Json) (hx : jlookup kvs "x".data = some jx)
    (hy : jlookup kvs "y".data = some jy) :
    dispatch env (some (Json.str "click".data)) (Json.obj kvs)
      = ([Prim.mouseClick jx jy],
         if env (Prim.mouseClick jx jy) then ParseExecResult.execError
         else ParseExecResult.success) := by
  have e : dispatch env (some (Json.str "click".data)) (Json.obj kvs)
      = clickExec env (Json.obj kvs) := rfl
  rw [e]
  simp [clickExec, pyIn, pyIndex, hx, hy]

/-- C7 witness: click with x = 10, y = 20 and a selector also present
clicks at exactly (10, 20) and succeeds. -/
theorem c7_click_coordinates_witness :
    dispatch env0 (some (Json.str "click".data)) (Json.obj kvsClickXY)
      = ([Prim.mouseClick (Json.num 10) (Json.num 20)], ParseExecResult.success) := by
  have h := c7_click_coordinates env0 kvsClickXY (Json.num 10) (Json.num 20) rfl rfl
  simpa [env0] using h

/-- C8 counterexample: a screenshot exception at the first step escapes
run_task: the run ends as a raised exception, an unhandled fault that is not
a model-API failure, against the claim that the run always terminates in
Complete, Failed or the max-steps outcome. -/
theorem c8_screenshot_fault_counterexample :
    (run_task wShotFail).outcome = RunOutcome.raised ExcKind.screenshotFailure := rfl

/-- C8 amended: parse-and-execute never lets an exception escape: whatever
the reply text and whatever primitives raise, the iteration consumes one
step and proceeds to the next; and provided the initial navigation and the
screenshot captures do not raise, the run always terminates in a returned
result dictionary.  A screenshot or navigation exception, however, escapes
run_task, so a model-API failure is not the only fatal mid-loop event. -/
theorem c8_no_unhandled_fault (w : World) :
    (∀ fuel step acc t, w.shotFails step = false → w.model step = ApiResult.ok t →
        hasMarker t = false →
        run_loop w (fuel + 1) step acc
          = run_loop w fuel (step + 1) (acc ++ (parse_and_execute_action w.env t).1))
    ∧ (w.startFails = false → w.gotoFails = false → (∀ n, w.shotFails n = false) →
        ∃ r, (run_task w).outcome = RunOutcome.normal r) := by
  constructor
  · intro fuel step acc t hshot hm hk
    simp [run_loop, hshot, hm, hk]
  · intro hstart hgoto hshot
    have key : ∀ fuel step acc, ∃ r,
        (run_loop w fuel step acc).1 = RunOutcome.normal r := by
      intro fuel
      induction fuel with
      | zero => intro step acc; exact ⟨_, rfl⟩
      | succ n ih =>
          intro step acc
          cases hm : w.model step with
          | err e =>
              exact ⟨RunResult.apiFailed ("API call failed: ".data ++ e) (step + 1),
                by simp [run_loop, hshot step, hm]⟩
          | ok t =>
              by_cases hk : hasMarker t = true
              · exact ⟨RunResult.complete (step + 1),
                  by simp [run_loop, hshot step, hm, hk]⟩
              · obtain ⟨r, hr⟩ := ih (step + 1) (acc ++ (parse_and_execute_action w.env t).1)
                refine ⟨r, ?_⟩
                simpa [run_loop, hshot step, hm, hk] using hr
    obtain ⟨r, hr⟩ := key w.maxSteps 0 []
    refine ⟨r, ?_⟩
    simp only [run_task, hstart, hgoto, Bool.false_eq_true, if_false]
    exact hr

/-- C8 witness: a run with only well-behaved collaborators ends in a
returned result dictionary. -/
theorem c8_no_unhandled_fault_witness :
    ∃ r, (run_task w0).outcome = RunOutcome.normal r :=
  (c8_no_unhandled_fault w0).2 rfl rfl (fun _ => rfl)

/-- C9 counterexample: when browser startup raises, stop_browser never runs
(start_browser sits outside the try/finally block), so the browser
resources are not released on that exit path. -/
theorem c9_start_failure_counterexample : (run_task wStartFail).stops = 0 := rfl

/-- C9 amended: once start_browser has returned, stop_browser runs exactly
once on every exit path: normal completion, max-steps exhaustion, API
failure, and exceptions raised by the initial navigation or a screenshot;
only an exception inside start_browser itself skips the release. -/
theorem c9_release_once (w : World) (hstart : w.startFails = false) :
    (run_task w).stops = 1 := by
  cases hg : w.gotoFails <;> simp [run_task, hstart, hg]

/-- C9 witness: a normal run releases the browser exactly once. -/
theorem c9_release_once_witness : (run_task w0).stops = 1 :=
  c9_release_once w0 rfl

/-- C10: the click_search and search action kinds are recognized, and each
attempts, in order and stopping at the first step that does not raise,
clicking the Google Search input button, clicking a generic submit button,
and pressing the Enter key. -/
theorem c10_click_search_chain (env : Prim → Bool) (details : Json) :
    dispatch env (some (Json.str "click_search".data)) details
      = (let r := chainAttempts env [Prim.clickSel (Json.str googleBtnSel),
          Prim.clickSel (Json.str submitBtnSel), Prim.kbPress "Enter".data]
         (r.1, if r.2 then ParseExecResult.success else ParseExecResult.execError))
    ∧ dispatch env (some (Json.str "search".data)) details
      = (let r := chainAttempts env [Prim.clickSel (Json.str googleBtnSel),
          Prim.clickSel (Json.str submitBtnSel), Prim.kbPress "Enter".data]
         (r.1, if r.2 then ParseExecResult.success else ParseExecResult.execError)) := by
  have hbody : clickSearchExec env
      = (let r := chainAttempts env [Prim.clickSel (Json.str googleBtnSel),
          Prim.clickSel (Json.str submitBtnSel), Prim.kbPress "Enter".data]
         (r.1, if r.2 then ParseExecResult.success else ParseExecResult.execError)) := by
    by_cases h1 : env (Prim.clickSel (Json.str googleBtnSel)) <;>
      by_cases h2 : env (Prim.clickSel (Json.str submitBtnSel)) <;>
        by_cases h3 : env (Prim.kbPress "Enter".data) <;>
          simp [clickSearchExec, chainAttempts, h1, h2, h3]
  exact ⟨hbody, hbody⟩

end CuaAgent
